import Mathlib

/-!
# Verification of the nosshtradamus predictive SSH proxy

Shallow embedding of the core components of the nosshtradamus repository
(package `predictive`: `Epochal`, `IoSwitch`, `Asynk`, `Interposer`;
package `sshproxy`: request codecs and `RunProxy`; `cmd/nosshtradamus`:
the session request filter), together with theorems settling the spec
claims about them.

Machine integers are modelled as `Nat` with explicit reduction modulo
`2^64` (for the `uint64` epoch counter) or `2^32` (for the `uint32`
codec fields).  Byte strings are `List Nat`.  The external go-mosh
terminal library (framebuffers, emulator, predictor, display) is out of
scope per the spec; its operations appear as opaque parameters
(a `TermLib` structure of functions) so the theorems hold for every
library behaviour.
-/

namespace Nosshtradamus

/-- 2^64, the modulus of Go's `uint64` arithmetic. -/
def U64MOD : Nat := 2 ^ 64

/-- 2^32, the modulus of Go's `uint32` arithmetic. -/
def U32MOD : Nat := 2 ^ 32

/-! ## Epochal (internal/predictive/epochal.go)

`Epochal` wraps an upstream `io.ReadWriteCloser`; its `Write` forwards to
the upstream and, when the upstream write returns a nil error and a
request generator is installed, atomically increments the 64-bit epoch
counter (`atomic.AddUint64`, which returns the new value) and hands that
new value to the request generator. -/

/-- State of an `Epochal` wrapper: the `uint64` epoch counter (as a `Nat`
below `U64MOD`) and whether a `requestGenerator` callback was installed
at `MakeEpochal` time. -/
structure EpochalState where
  epoch : Nat
  hasRequestGenerator : Bool
  deriving Repr, DecidableEq

/-- `MakeEpochal`: the counter starts at zero. -/
def makeEpochal (hasGen : Bool) : EpochalState :=
  { epoch := 0, hasRequestGenerator := hasGen }

/-- `Epochal.Write`, abstracting the upstream write to its success bit
(`writeOk` = "the returned error was nil").  Returns the new state and
the epoch value passed to the request generator, if any.  Mirrors:
`if err == nil && e.requestGenerator != nil { requestedEpoch :=
atomic.AddUint64(e.epoch, 1); e.requestGenerator(e, requestedEpoch) }`. -/
def epochalWrite (s : EpochalState) (writeOk : Bool) : EpochalState × Option Nat :=
  if writeOk && s.hasRequestGenerator then
    let requestedEpoch := (s.epoch + 1) % U64MOD
    ({ s with epoch := requestedEpoch }, some requestedEpoch)
  else
    (s, none)

/-- Run a sequence of writes (each abstracted to its upstream success
bit) through `Epochal.Write`, collecting the epochs handed to the
request generator. -/
def epochalRun (s : EpochalState) : List Bool → EpochalState × List Nat
  | [] => (s, [])
  | ok :: rest =>
      let (s', e?) := epochalWrite s ok
      let (sF, es) := epochalRun s' rest
      (sF, (e?.toList) ++ es)

/-- Number of successful writes in a sequence of outcomes. -/
def countOk (outs : List Bool) : Nat := (outs.filter (· = true)).length

/-! ## IoSwitch (internal/predictive/epochal.go, second half)

The I/O switch forwards `Read`/`Write`/`Close` to a passthrough stream
until `Enable` installs a refractor stream; `Enable` has an effect only
when the switch is not yet enabled. -/

/-- Streams are identified abstractly. -/
abbrev StreamId := Nat

/-- State of an `IoSwitch`: the passthrough stream, the optional
refractor, and the `enabled` flag (`MakeIoSwitch` starts with
`refractor = nil, enabled = false`). -/
structure IoSwitchState where
  passthrough : StreamId
  refractor : Option StreamId
  enabled : Bool
  deriving Repr, DecidableEq

/-- `MakeIoSwitch`. -/
def makeIoSwitch (p : StreamId) : IoSwitchState :=
  { passthrough := p, refractor := none, enabled := false }

/-- `IoSwitch.Enable`: `if !ios.enabled { ios.refractor = refractor;
ios.enabled = true }`. -/
def ioSwitchEnable (s : IoSwitchState) (r : StreamId) : IoSwitchState :=
  if !s.enabled then { s with refractor := some r, enabled := true } else s

/-- The stream `IoSwitch.Read`/`Write`/`Close` dispatch to:
`if ios.enabled { refractor } else { passthrough }`.  (All three methods
have the identical dispatch; `none` models the nil-pointer refractor,
unreachable from `makeIoSwitch`.) -/
def ioSwitchRoute (s : IoSwitchState) : Option StreamId :=
  if s.enabled then s.refractor else some s.passthrough

/-- `IoSwitch.Read`'s dispatch target. -/
def ioSwitchRead (s : IoSwitchState) : Option StreamId := ioSwitchRoute s

/-- `IoSwitch.Write`'s dispatch target. -/
def ioSwitchWrite (s : IoSwitchState) : Option StreamId := ioSwitchRoute s

/-- `IoSwitch.Close`'s dispatch target. -/
def ioSwitchClose (s : IoSwitchState) : Option StreamId := ioSwitchRoute s

/-- Apply a sequence of `Enable` calls to a switch state. -/
def ioSwitchEnables (s : IoSwitchState) : List StreamId → IoSwitchState
  | [] => s
  | r :: rs => ioSwitchEnables (ioSwitchEnable s r) rs

/-! ## SSH request codecs (sshproxy request parsing)

`window-change` payloads are four big-endian `uint32` values; only the
first two (width, height) are interpreted, and serialisation synthesises
the pixel fields as `Width*8` and `Height*8` (with `uint32` wraparound). -/

/-- Big-endian 4-byte encoding of a `uint32` value (`binary.Write` with
`binary.BigEndian`). -/
def u32ToBytes (v : Nat) : List Nat :=
  [v / 2 ^ 24 % 256, v / 2 ^ 16 % 256, v / 2 ^ 8 % 256, v % 256]

/-- Big-endian `uint32` decoding (`binary.Read` with `binary.BigEndian`):
consumes four bytes or fails. -/
def readU32 : List Nat → Option (Nat × List Nat)
  | b0 :: b1 :: b2 :: b3 :: rest =>
      some (((b0 * 256 + b1) * 256 + b2) * 256 + b3, rest)
  | _ => none

/-- `WindowChange`: the two extracted fields. -/
structure WindowChange where
  width : Nat
  height : Nat
  deriving Repr, DecidableEq

/-- `InterpretWindowChange`: read two big-endian `uint32`s (width then
height); any short read is a parse error (`none`). -/
def interpretWindowChange (payload : List Nat) : Option WindowChange := do
  let (width, rest) ← readU32 payload
  let (height, _) ← readU32 rest
  pure { width := width, height := height }

/-- `WindowChange.Serialize`: width, height, then the synthesised
pixel-unit fields `Width*8` and `Height*8` (as `uint32`s, so reduced
modulo `2^32`), all big-endian. -/
def serializeWindowChange (wc : WindowChange) : List Nat :=
  u32ToBytes wc.width ++ u32ToBytes wc.height ++
    u32ToBytes (wc.width * 8 % U32MOD) ++ u32ToBytes (wc.height * 8 % U32MOD)

/-! ## Proxy fabric: server-initiated agent-forwarding channels
(sshproxy/proxy.go, `RunProxy`)

The target server may open `auth-agent@openssh.com` channels toward the
proxy.  `RunProxy` handles each such channel-open request: when
`configOpts.BlockAgent` is set it rejects the open with
`ssh.Prohibited` and the message "agent forwarding prohibited" and
continues; otherwise it hands the request to `handleSshChannel`, which
opens the matching channel on the client side. -/

/-- SSH channel-open rejection reasons used by the proxy. -/
inductive SshRejectReason where
  | prohibited
  | connectionFailed
  deriving Repr, DecidableEq

/-- Outcome of one server-initiated `auth-agent@openssh.com`
channel-open request. -/
inductive AgentChannelOutcome where
  | rejected (reason : SshRejectReason) (message : String)
  | openedOnClientSide
  deriving Repr, DecidableEq

/-- The per-request body of `RunProxy`'s `auth-agent@openssh.com`
handler loop: `if configOpts.BlockAgent { channelRequest.Reject(
ssh.Prohibited, "agent forwarding prohibited"); continue };
go handleSshChannel(...)`. -/
def agentChannelOpen (blockAgent : Bool) : AgentChannelOutcome :=
  if blockAgent then
    .rejected .prohibited "agent forwarding prohibited"
  else
    .openedOnClientSide

/-- The handler loop over a whole sequence of server-initiated
agent-forwarding channel-open requests (one outcome per request). -/
def agentChannelLoop (blockAgent : Bool) (requests : List Unit) : List AgentChannelOutcome :=
  requests.map (fun _ => agentChannelOpen blockAgent)

/-! ## Asynk (internal/predictive/asynk.go)

The asynchronous sink writer: a bounded buffer in front of a blocking
upstream writer, drained by one background goroutine.  The model keeps
the fields of the Go struct (the buffer contents stand for
`buffer[0:bufferIndex]`, so `buf.length` is `bufferIndex`), the
drainer's local `lastTransmittedIndex`, the one-slot `writeNotify`
channel (`notifyPending`), whether that channel has been closed, and the
sticky `upstreamErr`.  Go panics (close of a closed channel) are modelled
explicitly. -/

/-- Go errors relevant to the sink: `io.EOF` and any other upstream
write error. -/
inductive GoErr where
  | eof
  | upstreamFailed
  deriving Repr, DecidableEq

/-- A Go runtime panic reachable from the sink code. -/
inductive GoPanic where
  | closeOfClosedChannel
  deriving Repr, DecidableEq

/-- State of an `Asynk`. -/
structure AsynkState where
  capacity : Nat
  buf : List Nat
  lastTransmitted : Nat
  notifyPending : Bool
  notifyClosed : Bool
  upstreamErr : Option GoErr
  deriving Repr, DecidableEq

/-- `MakeAsynk(upstream, capacity)`: empty buffer, drainer idle, no
error. -/
def makeAsynk (capacity : Nat) : AsynkState :=
  { capacity := capacity, buf := [], lastTransmitted := 0,
    notifyPending := false, notifyClosed := false, upstreamErr := none }

/-- One iteration of the drainer goroutine (`for range asynk.writeNotify`
body), run atomically: consume the pending notification, write
`buffer[lastTransmittedIndex:nextIndex]` upstream, then (the writer not
having intervened) observe `postWriteIndex == nextIndex` and reset the
buffer index.  The upstream is abstracted to an always-succeeding sink;
the bytes it received are returned.  No-op when no notification is
pending. -/
def asynkDrainerStep (s : AsynkState) : AsynkState × List Nat :=
  if s.notifyPending then
    let flushed := s.buf.drop s.lastTransmitted
    ({ s with notifyPending := false, buf := [], lastTransmitted := 0 }, flushed)
  else
    (s, [])

/-- `Asynk.Write`, under the schedule in which the drainer runs exactly
when the writer yields to it (`runtime.Gosched()` after a successful
notify, `cond.Wait()` after a rejected one).  `fuel` bounds the
recursion depth (`none` = fuel exhausted, never hit by the concrete
inputs below).  Returns `((n, err), final state, bytes the drainer
flushed upstream during the call)`; `n` is the value the Go function
returns, which is the byte count of the **final** recursive call only. -/
def asynkWriteGo : Nat → AsynkState → List Nat → Option ((Nat × Option GoErr) × AsynkState × List Nat)
  | 0, _, _ => none
  | fuel + 1, s, p =>
      match s.upstreamErr with
      | some err => some ((0, some err), s, [])
      | none =>
          let n := min (s.capacity - s.buf.length) p.length
          let s1 := { s with buf := s.buf ++ p.take n }
          if !s1.notifyPending then
            -- `asynk.writeNotify <- true` succeeded
            let s2 := { s1 with notifyPending := true }
            if p.length > n then
              -- runtime.Gosched(): the drainer runs, then we recurse
              let (s3, fl) := asynkDrainerStep s2
              match asynkWriteGo fuel s3 (p.drop n) with
              | some (r, sF, fl') => some (r, sF, fl ++ fl')
              | none => none
            else
              some ((n, none), s2, [])
          else
            -- notification slot full: `default` branch
            if p.length > n then
              -- cond.Wait(): woken by the drainer after it frees space
              let (s3, fl) := asynkDrainerStep s1
              match asynkWriteGo fuel s3 (p.drop n) with
              | some (r, sF, fl') => some (r, sF, fl ++ fl')
              | none => none
            else
              some ((n, none), s1, [])

/-- `Asynk.Close`: set the sticky error to `io.EOF` if none is recorded,
then `close(asynk.writeNotify)` — which panics if the channel is already
closed — then broadcast and close the upstream. -/
def asynkClose (s : AsynkState) : Except GoPanic AsynkState :=
  let s1 := if s.upstreamErr = none then { s with upstreamErr := some GoErr.eof } else s
  if s1.notifyClosed then
    .error .closeOfClosedChannel
  else
    .ok { s1 with notifyClosed := true }

/-! ## Zero-length interposer writes (termemu part_007 `Interposer.Write`
composed with `Asynk` and `Epochal`)

In the epoch-tracked composition (`options.PreFilter` installs an
`Epochal` below the interposer's `Asynk`), a write to the interposer
accumulates the emulator's terminal-to-host bytes and hands them to
`Asynk.Write`; the drainer flushes them into `Epochal.Write`, which on a
nil-error upstream write increments the epoch and emits a ping request.
The model composes the pieces for the write path. -/

/-- Composed write-path state: the sink, the epoch wrapper below it, the
ping requests generated so far, and the data bytes that reached the
server-side stream. -/
structure WritePathState where
  asynk : AsynkState
  epochal : EpochalState
  pingsSent : List Nat
  bytesToServer : List Nat
  deriving Repr, DecidableEq

/-- Initial write-path state of a fresh interposer (`Interpose` makes
the asynk with capacity 8192; `MakeEpochal` is given the ping request
generator). -/
def initWritePath : WritePathState :=
  { asynk := makeAsynk 8192, epochal := makeEpochal true,
    pingsSent := [], bytesToServer := [] }

/-- `Interposer.Write(p)` (part_007), restricted to its effect on the
write path: the per-byte emulator outputs `terminalToHost` are
accumulated (given here as `tth`, the concatenation of
`emulator.Act(UserByte b)` outputs) and passed to `Asynk.Write`.  For a
zero-length `p` the accumulated `tth` is the empty string. -/
def interposerWriteFlush (w : WritePathState) (tth : List Nat) :
    Option (WritePathState × (Nat × Option GoErr)) :=
  match asynkWriteGo (tth.length + 1) w.asynk tth with
  | some (r, sF, _) => some ({ w with asynk := sF }, r)
  | none => none

/-- One drainer iteration of the composed system: the drainer writes the
unflushed buffer segment to `Epochal.Write`, which forwards the bytes to
the server-side stream (always succeeding there) and then, on the nil
error, increments the epoch and generates a ping. -/
def writePathDrainerStep (w : WritePathState) : WritePathState :=
  let (a', flushed) := asynkDrainerStep w.asynk
  if w.asynk.notifyPending then
    let (e', ping?) := epochalWrite w.epochal true
    { asynk := a', epochal := e',
      pingsSent := w.pingsSent ++ ping?.toList,
      bytesToServer := w.bytesToServer ++ flushed }
  else
    { w with asynk := a' }

/-! ## Predictive interposer (termemu part_007)

The interposer couples three framebuffers (`completeRemoteState`,
`pendingRemoteState`, `localState`), the emulator, and the predictor.
The go-mosh terminal library is external: framebuffers and predictor
state are opaque values (`FB`, `PS`, both `List Nat` so concrete
instances are computable) and its operations are parameters gathered in
`TermLib`.  Each interposer operation of the source is one event of a
transition system acting on the interposer's fields. -/

/-- Opaque framebuffer contents. -/
abbrev FB := List Nat

/-- Opaque predictor-engine state. -/
abbrev PS := List Nat

/-- The external go-mosh operations used by the interposer (spec §6
terminal-library interface).  Functions that mutate a framebuffer or the
predictor in Go return the new value here. -/
structure TermLib where
  /-- `emulator.Perform(chunk)`: new emulator framebuffer and the
  terminal-to-host reply bytes. -/
  perform : FB → List Nat → FB × List Nat
  /-- `emulator.Act(parser.MakeUserByte(b))`. -/
  actUser : FB → Nat → FB × List Nat
  /-- `emulator.Act(parser.MakeResize(w, h))`. -/
  actResize : FB → Nat → Nat → FB × List Nat
  /-- `predictor.NewUserByte(b, fb)`: mutates predictor and fb. -/
  newUserByte : PS → Nat → FB → PS × FB
  /-- `predictor.Cull(fb)`. -/
  cull : PS → FB → PS × FB
  /-- `predictor.Apply(fb)`. -/
  applyOverlay : PS → FB → PS × FB
  /-- `predictor.LocalFrameSent/Acked/LateAcked(epoch)` and `Reset()`. -/
  localFrameSent : PS → Nat → PS
  localFrameAcked : PS → Nat → PS
  localFrameLateAcked : PS → Nat → PS
  resetPredictor : PS → PS
  /-- `display.NewFrame(initialized, old, new)`. -/
  newFrame : Bool → FB → FB → List Nat
  /-- `display.Open()` / `display.Close()`. -/
  openStr : List Nat
  closeStr : List Nat

/-- A trivial concrete terminal library used to evaluate the theorems on
concrete states: `Perform` appends the chunk to the framebuffer,
`Act(UserByte b)` echoes the byte, predictions are no-ops. -/
def trivLib : TermLib :=
  { perform := fun fb chunk => (fb ++ chunk, [])
    actUser := fun fb b => (fb ++ [b], [b])
    actResize := fun fb w h => (fb ++ [w, h], [])
    newUserByte := fun ps b fb => (ps ++ [b], fb)
    cull := fun ps fb => (ps, fb)
    applyOverlay := fun ps fb => (ps, fb)
    localFrameSent := fun ps _ => ps
    localFrameAcked := fun ps _ => ps
    localFrameLateAcked := fun ps _ => ps
    resetPredictor := fun ps => ps
    newFrame := fun _ old new => old ++ new
    openStr := [27]
    closeStr := [27, 99] }

/-- The mutable fields of the `Interposer` struct (part_007) reached by
its operations. -/
structure InterposerState where
  completeRemoteState : FB
  pendingRemoteState : FB
  localState : FB
  emulatorFB : FB
  predictor : PS
  pendingEpoch : Bool
  droppedUpdate : Bool
  opened : Bool
  initialized : Bool
  pendingBuf : Option (List Nat)
  lastUpstreamErr : Option GoErr
  deriving Repr, DecidableEq

/-- `Interpose`: all three framebuffers start as fresh 1×1 buffers, the
flags cleared. -/
def interposeInit : InterposerState :=
  { completeRemoteState := [], pendingRemoteState := [], localState := [],
    emulatorFB := [], predictor := [],
    pendingEpoch := false, droppedUpdate := false,
    opened := false, initialized := false,
    pendingBuf := none, lastUpstreamErr := none }

/-- Which of `Read`'s two select arms fired (upstream update vs.
prediction notification), or an upstream error delivered on the
`upstreamErr` channel. -/
inductive ReadWake where
  | upstreamUpdate
  | predictionReady
  | upstreamError (err : GoErr)
  deriving Repr, DecidableEq

/-- The interposer operations, one constructor per method of part_007
(plus the upstream pump's per-chunk body).  Non-deterministic inputs of
the source — the bytes read, whether a non-blocking channel put was
accepted, which select arm fired — are constructor arguments. -/
inductive IEvent where
  /-- `Interposer.Write(p)`; `notifyTaken` says whether the non-blocking
  `predictionNotification <- true` put was accepted. -/
  | write (p : List Nat) (notifyTaken : Bool)
  /-- The frame-emitting part of `Interposer.Read` (state `opened`, no
  pending carry-over, no recorded error): which wake-up fired. -/
  | read (wake : ReadWake)
  /-- `Interposer.SpeculateEpoch(epoch)`. -/
  | speculateEpoch (epoch : Nat)
  /-- `Interposer.CompleteEpoch(epoch, pending)`; `notifyTaken` as for
  `write`, for the non-blocking `upstreamErr <- nil` put. -/
  | completeEpoch (epoch : Nat) (pendingArg : Bool) (notifyTaken : Bool)
  /-- One iteration of `pullFromUpstream` that read `chunk` (n > 0,
  nil read error): `writeBackOk` is the result of writing the emulator's
  terminal-to-host reply upstream, `notifyTaken` as above. -/
  | upstreamChunk (chunk : List Nat) (writeBackOk : Bool) (notifyTaken : Bool)
  /-- The tail of a `pullFromUpstream` iteration whose `upstream.Read`
  returned an error (with n = 0): record it and post it. -/
  | upstreamReadErr (err : GoErr) (notifyTaken : Bool)
  /-- `Interposer.Resize(w, h)`. -/
  | resize (w h : Nat)
  /-- `Interposer.Close()`. -/
  | close
  /-- `Interposer.CurrentContents(noPrediction)`. -/
  | currentContents (noPrediction : Bool)
  deriving Repr, DecidableEq

/-- The `Write` loop body over one byte: predictor stages a prediction on
`localState`, the emulator acts on the user byte accumulating
terminal-to-host output, and byte `0x0c` clears `initialized`. -/
def writeByteStep (L : TermLib) (acc : InterposerState × List Nat) (b : Nat) :
    InterposerState × List Nat :=
  let (s, out) := acc
  let (ps', local') := L.newUserByte s.predictor b s.localState
  let (efb', tth) := L.actUser s.emulatorFB b
  let s' := { s with predictor := ps', localState := local', emulatorFB := efb' }
  let s'' := if b = 0x0c then { s' with initialized := false } else s'
  (s'', out ++ tth)

/-- The accumulated terminal-to-host bytes of `Interposer.Write(p)`
(what gets handed to the upstream asynk). -/
def writeTerminalToHost (L : TermLib) (s : InterposerState) (p : List Nat) : List Nat :=
  (p.foldl (writeByteStep L) (s, [])).2

/-- One step of the interposer transition system; translated clause by
clause from part_007. -/
def istep (L : TermLib) (ev : IEvent) (s : InterposerState) : InterposerState :=
  match ev with
  | .write p notifyTaken =>
      let s' := (p.foldl (writeByteStep L) (s, [])).1
      if p.length > 0 && !notifyTaken then { s' with droppedUpdate := true } else s'
  | .read wake =>
      if s.pendingBuf.isSome then
        { s with pendingBuf := none }
      else if !s.opened then
        { s with opened := true }
      else if s.lastUpstreamErr.isSome then
        s
      else
        match (if s.droppedUpdate then ReadWake.upstreamUpdate else wake) with
        | .upstreamError _ => s
        | _ =>
            -- emit: copy completeRemoteState, cull+apply predictions,
            -- diff against localState, install the copy as localState
            let (ps1, copy1) := L.cull s.predictor s.completeRemoteState
            let (ps2, copy2) := L.applyOverlay ps1 copy1
            { s with droppedUpdate := false, predictor := ps2,
                     initialized := true, localState := copy2 }
  | .speculateEpoch epoch =>
      { s with pendingEpoch := true, predictor := L.localFrameSent s.predictor epoch }
  | .completeEpoch epoch pendingArg notifyTaken =>
      let ps' := L.localFrameLateAcked (L.localFrameAcked s.predictor epoch) epoch
      let s' := { s with predictor := ps',
                         completeRemoteState := s.pendingRemoteState,
                         pendingEpoch := pendingArg }
      if !notifyTaken then { s' with droppedUpdate := true } else s'
  | .upstreamChunk chunk writeBackOk notifyTaken =>
      let (efb', tth) := L.perform s.emulatorFB chunk
      let s1 := { s with emulatorFB := efb', pendingRemoteState := efb' }
      if tth.length > 0 && !writeBackOk then
        -- write-back failed: record the error, notify, pump returns
        let s2 := { s1 with lastUpstreamErr := some GoErr.upstreamFailed }
        if !notifyTaken then { s2 with droppedUpdate := true } else s2
      else
        -- FIXME hack: commit to completeRemoteState when no epoch pending
        let s2 := if !s1.pendingEpoch
          then { s1 with completeRemoteState := s1.pendingRemoteState }
          else s1
        if !notifyTaken then { s2 with droppedUpdate := true } else s2
  | .upstreamReadErr err notifyTaken =>
      let s1 := if s.lastUpstreamErr = none
        then { s with lastUpstreamErr := some err } else s
      if !notifyTaken then { s1 with droppedUpdate := true } else s1
  | .resize w h =>
      let (efb', _) := L.actResize s.emulatorFB w h
      { s with emulatorFB := efb', predictor := L.resetPredictor s.predictor }
  | .close =>
      if s.opened then
        { s with pendingBuf := some ((s.pendingBuf.getD []) ++ L.closeStr) }
      else
        s
  | .currentContents noPrediction =>
      if noPrediction then s
      else
        let (ps1, copy1) := L.cull s.predictor s.emulatorFB
        let (ps2, _) := L.applyOverlay ps1 copy1
        { s with predictor := ps2 }

/-! ## Session request filter (cmd/nosshtradamus/main.go, `reqFilter`)

Channel requests from the client pass through the filter before being
forwarded; `nosshtradamus/displayPreference` and
`nosshtradamus/predictOverwrite` are consumed locally (`continue`
before the passthrough send). -/

/-- Prediction display preferences (`overlay.DisplayPreference`,
re-exported by the predictive package). -/
inductive DisplayPreference where
  | predictAlways
  | predictNever
  | predictAdaptive
  | predictExperimental
  deriving Repr, DecidableEq

/-- Effect of one `nosshtradamus/displayPreference` request on the
filter: whether the request was forwarded to the server, the reply sent
(if any), and the preference applied to the interposer (if any). -/
structure DisplayPrefResult where
  forwarded : Bool
  reply : Option Bool
  setPref : Option DisplayPreference
  deriving Repr, DecidableEq

/-- The `case "nosshtradamus/displayPreference"` branch of `reqFilter`:
`continue` when the interposer is not yet activated; otherwise lower-case
the payload and switch over the four recognised values, each replying
success when a reply is wanted; the switch has no default clause, so an
unrecognised payload falls through to the `continue` with no reply.  The
request is never passed through. -/
def handleDisplayPreference (interposerActive : Bool) (payload : List Char)
    (wantReply : Bool) : DisplayPrefResult :=
  if !interposerActive then
    { forwarded := false, reply := none, setPref := none }
  else
    let preference := payload.map Char.toLower
    if preference = "always".toList then
      { forwarded := false, reply := if wantReply then some true else none,
        setPref := some .predictAlways }
    else if preference = "never".toList then
      { forwarded := false, reply := if wantReply then some true else none,
        setPref := some .predictNever }
    else if preference = "adaptive".toList then
      { forwarded := false, reply := if wantReply then some true else none,
        setPref := some .predictAdaptive }
    else if preference = "experimental".toList then
      { forwarded := false, reply := if wantReply then some true else none,
        setPref := some .predictExperimental }
    else
      { forwarded := false, reply := none, setPref := none }

/-! ## Epoch close ordering (cmd/nosshtradamus/main.go open-epoch
callback; part_002 `options.OpenEpoch`)

Each opened epoch gets its own goroutine that sends the
`nosshtradamus/ping/<epoch>` channel request (with `want_reply`), waits
for the reply, sleeps one display frame and calls
`CloseEpoch`/`CompleteEpoch`.  SSH channel-request replies carry no
identifier and are delivered in the order the requests were sent
(FIFO).  The goroutines themselves are unordered.  The model is an
interleaving transition system over the per-epoch task phases. -/

/-- Phase of one epoch's ping task. -/
inductive PingPhase where
  | toSend
  | awaitReply
  | toClose
  | closed
  deriving Repr, DecidableEq

/-- Global state of the ping/close machinery of one channel. -/
structure PingSystem where
  /-- Per-epoch task phases (epochs are opened as 1, 2, …). -/
  phases : List (Nat × PingPhase)
  /-- Requests in flight, in the order they were sent. -/
  sentQueue : List Nat
  /-- Epochs closed so far, in close order. -/
  closes : List Nat
  /-- The epoch counter (last opened epoch). -/
  lastOpened : Nat
  deriving Repr, DecidableEq

/-- Scheduler events of the ping machinery. -/
inductive PingEvent where
  /-- `Epochal.Write` assigns the next epoch and spawns its task. -/
  | openEpoch
  /-- Task of `e` executes `sshChannel.SendRequest("…/ping/e", true, nil)`
  (the send part). -/
  | sendPing (e : Nat)
  /-- The server's reply to the oldest in-flight request is delivered;
  `SendRequest` of that epoch's task returns. -/
  | deliverReply
  /-- Task of `e` (after its one-frame sleep) calls `CloseEpoch(e)`. -/
  | closeEpoch (e : Nat)
  deriving Repr, DecidableEq

/-- Update the phase of epoch `e` in an association list. -/
def setPhase (phases : List (Nat × PingPhase)) (e : Nat) (ph : PingPhase) :
    List (Nat × PingPhase) :=
  phases.map (fun q => if q.1 = e then (e, ph) else q)

/-- One interleaving step; `none` when the event is not enabled in the
current state (no such task, wrong phase, or no reply due). -/
def pingStep (ev : PingEvent) (s : PingSystem) : Option PingSystem :=
  match ev with
  | .openEpoch =>
      let e := s.lastOpened + 1
      some { s with phases := s.phases ++ [(e, .toSend)], lastOpened := e }
  | .sendPing e =>
      match s.phases.lookup e with
      | some .toSend =>
          some { s with phases := setPhase s.phases e .awaitReply,
                        sentQueue := s.sentQueue ++ [e] }
      | _ => none
  | .deliverReply =>
      match s.sentQueue with
      | [] => none
      | e :: rest =>
          match s.phases.lookup e with
          | some .awaitReply =>
              some { s with phases := setPhase s.phases e .toClose,
                            sentQueue := rest }
          | _ => none
  | .closeEpoch e =>
      match s.phases.lookup e with
      | some .toClose =>
          some { s with phases := setPhase s.phases e .closed,
                        closes := s.closes ++ [e] }
      | _ => none

/-- The initial ping system: no epochs opened. -/
def pingInit : PingSystem :=
  { phases := [], sentQueue := [], closes := [], lastOpened := 0 }

/-- Run a sequence of scheduler events; fails if any event is not
enabled, so a `some` result is a legal interleaving of the goroutines. -/
def pingRun (evs : List PingEvent) : Option PingSystem :=
  evs.foldlM (fun s ev => pingStep ev s) pingInit

/-- A legal interleaving in which epoch 2's goroutine sends its ping
before epoch 1's: the FIFO replies then release epoch 2's task first and
it closes before epoch 1. -/
def outOfOrderSchedule : List PingEvent :=
  [.openEpoch, .openEpoch, .sendPing 2, .sendPing 1,
   .deliverReply, .closeEpoch 2, .deliverReply, .closeEpoch 1]

/-! ## Helper lemmas -/

theorem epochalRun_generic (outs : List Bool) :
    ∀ e : Nat, e + countOk outs < U64MOD →
      epochalRun ⟨e, true⟩ outs =
        (⟨e + countOk outs, true⟩, List.range' (e + 1) (countOk outs)) := by
  induction outs with
  | nil => intro e _; simp [epochalRun, countOk]
  | cons ok rest ih =>
      intro e h
      cases ok with
      | false =>
          have hc : countOk (false :: rest) = countOk rest := by
            simp [countOk]
          rw [hc] at h ⊢
          simp only [epochalRun, epochalWrite, Bool.false_and, if_neg Bool.false_ne_true]
          rw [ih e h]
          simp
      | true =>
          have hc : countOk (true :: rest) = countOk rest + 1 := by
            simp [countOk]
          rw [hc] at h ⊢
          have he1 : e + 1 < U64MOD := by omega
          have hmod : (e + 1) % U64MOD = e + 1 := Nat.mod_eq_of_lt he1
          simp only [epochalRun, epochalWrite, Bool.true_and, if_pos, hmod]
          rw [ih (e + 1) (by omega)]
          simp only [Option.toList, List.range'_succ]
          have : e + 1 + countOk rest = e + (countOk rest + 1) := by omega
          rw [this]
          simp

theorem ioSwitchEnables_after_first (r : StreamId) (rs : List StreamId) (p : StreamId) :
    ioSwitchEnables (ioSwitchEnable (makeIoSwitch p) r) rs =
      { passthrough := p, refractor := some r, enabled := true } := by
  have hbase : ioSwitchEnable (makeIoSwitch p) r =
      { passthrough := p, refractor := some r, enabled := true } := by
    simp [ioSwitchEnable, makeIoSwitch]
  rw [hbase]
  induction rs with
  | nil => rfl
  | cons r' rs ih =>
      simp only [ioSwitchEnables, ioSwitchEnable]
      exact ih

theorem readU32_u32ToBytes (v : Nat) (rest : List Nat) (h : v < U32MOD) :
    readU32 (u32ToBytes v ++ rest) = some (v, rest) := by
  simp only [u32ToBytes, readU32, List.cons_append, List.nil_append]
  congr 2
  have h32 : v < 2 ^ 32 := h
  omega

theorem writeFold_frame (L : TermLib) (p : List Nat) :
    ∀ (s : InterposerState) (out : List Nat),
      ((p.foldl (writeByteStep L) (s, out)).1.completeRemoteState = s.completeRemoteState ∧
       (p.foldl (writeByteStep L) (s, out)).1.pendingEpoch = s.pendingEpoch) := by
  induction p with
  | nil => intro s out; exact ⟨rfl, rfl⟩
  | cons b rest ih =>
      intro s out
      simp only [List.foldl_cons]
      have hstep : ((writeByteStep L (s, out) b).1.completeRemoteState = s.completeRemoteState ∧
          (writeByteStep L (s, out) b).1.pendingEpoch = s.pendingEpoch) := by
        simp only [writeByteStep]
        split <;> exact ⟨rfl, rfl⟩
      obtain ⟨h1, h2⟩ := ih (writeByteStep L (s, out) b).1 (writeByteStep L (s, out) b).2
      constructor
      · rw [← hstep.1]
        exact h1.trans rfl
      · rw [← hstep.2]
        exact h2.trans rfl

theorem asynkWriteGo_nil (fuel : Nat) (s : AsynkState)
    (herr : s.upstreamErr = none) (hnp : s.notifyPending = false) :
    asynkWriteGo (fuel + 1) s [] =
      some ((0, none), { s with notifyPending := true }, []) := by
  simp [asynkWriteGo, herr, hnp]

/-! ## Claim theorems -/

/-- C1: For every sequence of writes through `Epochal.Write`, the epoch
identifiers handed to the request generator are exactly `1, 2, …, k`
where `k` is the number of successful writes: strictly increasing,
starting at 1, with no epoch skipped, the n-th successful write
receiving epoch n (as long as the `uint64` counter does not wrap). -/
theorem epochal_epochs_are_consecutive (outs : List Bool)
    (h : countOk outs < U64MOD) :
    (epochalRun (makeEpochal true) outs).2 = List.range' 1 (countOk outs) := by
  have := epochalRun_generic outs 0 (by omega)
  simp only [makeEpochal]
  rw [this]

/-- Witness for C1 at the concrete outcome sequence
success, failure, success, success: epochs 1, 2, 3 are assigned. -/
theorem epochal_epochs_are_consecutive_witness :
    countOk [true, false, true, true] < U64MOD ∧
      (epochalRun (makeEpochal true) [true, false, true, true]).2 =
        List.range' 1 (countOk [true, false, true, true]) :=
  ⟨by norm_num [countOk, U64MOD],
   epochal_epochs_are_consecutive [true, false, true, true]
     (by norm_num [countOk, U64MOD])⟩

/-- C10: the I/O switch latches on its first `Enable`: after
`Enable(r)` on a fresh switch, any further sequence of `Enable` calls
leaves the state unchanged (`enabled` stays set, the refractor stays
`r`) and `Read`, `Write` and `Close` all dispatch to `r` — the switch
never reverts to the passthrough and never rebinds. -/
theorem ioSwitch_latches_on_first_enable (p r : StreamId) (rs : List StreamId) :
    (ioSwitchEnables (ioSwitchEnable (makeIoSwitch p) r) rs).enabled = true ∧
    (ioSwitchEnables (ioSwitchEnable (makeIoSwitch p) r) rs).refractor = some r ∧
    ioSwitchRead (ioSwitchEnables (ioSwitchEnable (makeIoSwitch p) r) rs) = some r ∧
    ioSwitchWrite (ioSwitchEnables (ioSwitchEnable (makeIoSwitch p) r) rs) = some r ∧
    ioSwitchClose (ioSwitchEnables (ioSwitchEnable (makeIoSwitch p) r) rs) = some r := by
  rw [ioSwitchEnables_after_first]
  refine ⟨rfl, rfl, ?_, ?_, ?_⟩ <;> rfl

/-- C8: interpreting a serialised `WindowChange` returns the same width
and height with no parse error, and the serialisation synthesises the
two pixel fields as `Width*8` and `Height*8` (`uint32` arithmetic). -/
theorem windowChange_roundtrip (wc : WindowChange)
    (hw : wc.width < U32MOD) (hh : wc.height < U32MOD) :
    interpretWindowChange (serializeWindowChange wc) = some wc ∧
      (serializeWindowChange wc).drop 8 =
        u32ToBytes (wc.width * 8 % U32MOD) ++ u32ToBytes (wc.height * 8 % U32MOD) := by
  constructor
  · simp only [serializeWindowChange, interpretWindowChange, List.append_assoc]
    rw [readU32_u32ToBytes wc.width _ hw]
    simp only [Option.bind_eq_bind, Option.some_bind]
    rw [readU32_u32ToBytes wc.height _ hh]
    rfl
  · simp [serializeWindowChange, u32ToBytes]

/-- Witness for C8 at a concrete 80×24 window change. -/
theorem windowChange_roundtrip_witness :
    (80 : Nat) < U32MOD ∧ (24 : Nat) < U32MOD ∧
      interpretWindowChange (serializeWindowChange ⟨80, 24⟩) = some ⟨80, 24⟩ ∧
      (serializeWindowChange ⟨80, 24⟩).drop 8 =
        u32ToBytes (80 * 8 % U32MOD) ++ u32ToBytes (24 * 8 % U32MOD) :=
  ⟨by norm_num [U32MOD], by norm_num [U32MOD],
   windowChange_roundtrip ⟨80, 24⟩ (by norm_num [U32MOD]) (by norm_num [U32MOD])⟩

/-- C9: with agent forwarding disabled (`BlockAgent` true, i.e. no `-A`
flag), every server-initiated `auth-agent@openssh.com` channel-open
request is rejected with the `prohibited` reason and the message
"agent forwarding prohibited"; none is opened on the client side. -/
theorem blocked_agent_channels_rejected (requests : List Unit) :
    agentChannelLoop true requests =
        requests.map (fun _ => .rejected .prohibited "agent forwarding prohibited") ∧
      AgentChannelOutcome.openedOnClientSide ∉ agentChannelLoop true requests := by
  constructor
  · rfl
  · intro hmem
    simp only [agentChannelLoop, agentChannelOpen, if_pos, List.mem_map] at hmem
    obtain ⟨_, _, hcontra⟩ := hmem
    exact AgentChannelOutcome.noConfusion hcontra

/-- C2: the interposer's authoritative framebuffer
(`completeRemoteState`) changes only (a) when the upstream pump
processes a chunk at a moment when no epoch is pending, or (b) when an
epoch is completed (`CompleteEpoch`); no other interposer operation
writes to it — for every terminal-library behaviour, every state and
every event. -/
theorem completeRemoteState_update_sites (L : TermLib) (ev : IEvent)
    (s : InterposerState)
    (hchange : (istep L ev s).completeRemoteState ≠ s.completeRemoteState) :
    (∃ epoch pendingArg notifyTaken,
        ev = .completeEpoch epoch pendingArg notifyTaken) ∨
    (∃ chunk writeBackOk notifyTaken,
        ev = .upstreamChunk chunk writeBackOk notifyTaken ∧ s.pendingEpoch = false) := by
  cases ev with
  | write p notifyTaken =>
      exfalso
      apply hchange
      simp only [istep]
      have hfold := (writeFold_frame L p s []).1
      split
      · exact hfold
      · exact hfold
  | read wake =>
      exfalso
      apply hchange
      simp only [istep]
      split
      · rfl
      · split
        · rfl
        · split
          · rfl
          · split <;> rfl
  | speculateEpoch epoch =>
      exfalso; exact hchange rfl
  | completeEpoch epoch pendingArg notifyTaken =>
      exact Or.inl ⟨epoch, pendingArg, notifyTaken, rfl⟩
  | upstreamChunk chunk writeBackOk notifyTaken =>
      refine Or.inr ⟨chunk, writeBackOk, notifyTaken, rfl, ?_⟩
      by_contra hpend
      have hpend' : s.pendingEpoch = true := by
        cases hp : s.pendingEpoch
        · exact absurd hp hpend
        · rfl
      apply hchange
      simp only [istep]
      split
      · split <;> rfl
      · simp only [hpend']
        split <;> rfl
  | upstreamReadErr err notifyTaken =>
      exfalso
      apply hchange
      simp only [istep]
      split <;> split <;> rfl
  | resize w h =>
      exfalso; exact hchange rfl
  | close =>
      exfalso
      apply hchange
      simp only [istep]
      split <;> rfl
  | currentContents noPrediction =>
      exfalso
      apply hchange
      simp only [istep]
      split <;> rfl

/-- Witness for C2: completing epoch 1 on a state whose pending remote
framebuffer differs from the authoritative one does change the
authoritative framebuffer, and the theorem attributes the change to
`CompleteEpoch`. -/
theorem completeRemoteState_update_sites_witness :
    (istep trivLib (.completeEpoch 1 false true)
          { interposeInit with pendingRemoteState := [42] }).completeRemoteState ≠
        ({ interposeInit with pendingRemoteState := [42] } :
          InterposerState).completeRemoteState ∧
      ((∃ epoch pendingArg notifyTaken,
          (IEvent.completeEpoch 1 false true) =
            .completeEpoch epoch pendingArg notifyTaken) ∨
       (∃ chunk writeBackOk notifyTaken,
          (IEvent.completeEpoch 1 false true) =
            .upstreamChunk chunk writeBackOk notifyTaken ∧
            ({ interposeInit with pendingRemoteState := [42] } :
              InterposerState).pendingEpoch = false)) :=
  ⟨by decide,
   completeRemoteState_update_sites trivLib (.completeEpoch 1 false true)
     { interposeInit with pendingRemoteState := [42] } (by decide)⟩

theorem lookup_setPhase (e : Nat) (ph : PingPhase) (l : List (Nat × PingPhase)) :
    (setPhase l e ph).lookup e = (l.lookup e).map (fun _ => ph) := by
  induction l with
  | nil => rfl
  | cons q rest ih =>
      obtain ⟨k, v⟩ := q
      by_cases hq : k = e
      · subst hq
        have hmap : setPhase ((k, v) :: rest) k ph = (k, ph) :: setPhase rest k ph := by
          simp [setPhase]
        rw [hmap]
        simp only [List.lookup, beq_self_eq_true]
        rfl
      · have hbeq : (e == k) = false :=
          beq_eq_false_iff_ne.mpr (fun hcontra => hq hcontra.symm)
        have hmap : setPhase ((k, v) :: rest) e ph = (k, v) :: setPhase rest e ph := by
          simp only [setPhase, List.map_cons]
          rw [if_neg hq]
        rw [hmap]
        simp only [List.lookup, hbeq]
        exact ih

/-- C3 counterexample: a legal interleaving of the per-epoch ping
goroutines (part_002 `options.OpenEpoch` spawns one per epoch) in which
epoch 2's goroutine sends its ping request before epoch 1's; the FIFO
channel-request replies then release epoch 2's task first, so
`CloseEpoch(2)` runs before `CloseEpoch(1)`: the closes `[2, 1]` are not
in ascending order, refuting the claim that epochs are never closed out
of ascending order. -/
theorem epoch_close_out_of_order :
    (pingRun outOfOrderSchedule).map PingSystem.closes = some [2, 1] ∧
      ¬ List.Chain' (· < ·) [2, 1] := by
  constructor
  · rfl
  · intro hchain
    exact absurd (List.chain'_cons.mp hchain).1 (by omega)

/-- C3 amended: closes of distinct epochs are not ordered, but each
single epoch is closed at most once and only after its ping reply was
delivered: a `CloseEpoch(e)` step is enabled only in phase `toClose`
(entered by the reply), moves `e` to phase `closed`, appends `e` to the
close sequence, and is never enabled for `e` again. -/
theorem epoch_close_once_after_reply (s s' : PingSystem) (e : Nat)
    (h : pingStep (.closeEpoch e) s = some s') :
    s.phases.lookup e = some .toClose ∧
      s'.phases.lookup e = some .closed ∧
      s'.closes = s.closes ++ [e] ∧
      pingStep (.closeEpoch e) s' = none := by
  simp only [pingStep] at h
  cases hl : s.phases.lookup e with
  | none => rw [hl] at h; exact absurd h (by simp)
  | some ph =>
      rw [hl] at h
      cases ph with
      | toSend => exact absurd h (by simp)
      | awaitReply => exact absurd h (by simp)
      | closed => exact absurd h (by simp)
      | toClose =>
          have hs' : s' = { s with phases := setPhase s.phases e .closed,
                                   closes := s.closes ++ [e] } :=
            (Option.some.inj h).symm
          subst hs'
          refine ⟨rfl, ?_, rfl, ?_⟩
          · rw [lookup_setPhase, hl]
            rfl
          · simp only [pingStep]
            rw [lookup_setPhase, hl]
            rfl

/-- Witness for the amended C3 theorem at a one-epoch system in phase
`toClose`. -/
theorem epoch_close_once_after_reply_witness :
    pingStep (.closeEpoch 1) ⟨[(1, .toClose)], [], [], 1⟩ =
        some ⟨[(1, .closed)], [], [1], 1⟩ ∧
      ((⟨[(1, .toClose)], [], [], 1⟩ : PingSystem).phases.lookup 1 = some .toClose ∧
        (⟨[(1, .closed)], [], [1], 1⟩ : PingSystem).phases.lookup 1 = some .closed ∧
        (⟨[(1, .closed)], [], [1], 1⟩ : PingSystem).closes =
          (⟨[(1, .toClose)], [], [], 1⟩ : PingSystem).closes ++ [1] ∧
        pingStep (.closeEpoch 1) ⟨[(1, .closed)], [], [1], 1⟩ = none) :=
  ⟨by decide,
   epoch_close_once_after_reply ⟨[(1, .toClose)], [], [], 1⟩
     ⟨[(1, .closed)], [], [1], 1⟩ 1 (by decide)⟩

/-- C4 counterexample: a zero-length `Interposer.Write` DOES produce an
epoch.  The empty terminal-to-host accumulation is still handed to
`Asynk.Write`, which posts a notification; the drainer then performs an
empty upstream write through `Epochal.Write`, whose nil error increments
the epoch counter and generates ping 1 — even though zero bytes reached
the server.  This refutes the claim that a zero-length write produces no
epoch and no ping. -/
theorem zero_write_produces_ping :
    (interposerWriteFlush initWritePath
          (writeTerminalToHost trivLib interposeInit [])).map
        (fun r => ((writePathDrainerStep r.1).pingsSent,
                   (writePathDrainerStep r.1).bytesToServer)) =
      some ([1], []) := by
  rfl

/-- C4 amended: a zero-length write to the interposer sends no
terminal-to-host bytes toward the server, but it is not epoch-free:
from any quiescent write path (empty sink buffer, no pending
notification, no sticky error, request generator installed), the write
returns `(0, nil)` and the subsequent drainer run flushes zero bytes yet
increments the epoch counter and generates exactly one ping request,
numbered `epoch + 1`. -/
theorem zero_write_no_bytes_but_one_ping (L : TermLib) (s : InterposerState)
    (w : WritePathState)
    (hbuf : w.asynk.buf = []) (hnp : w.asynk.notifyPending = false)
    (herr : w.asynk.upstreamErr = none)
    (hgen : w.epochal.hasRequestGenerator = true) :
    ∃ w' : WritePathState,
      interposerWriteFlush w (writeTerminalToHost L s []) = some (w', (0, none)) ∧
        (writePathDrainerStep w').bytesToServer = w.bytesToServer ∧
        (writePathDrainerStep w').pingsSent =
          w.pingsSent ++ [(w.epochal.epoch + 1) % U64MOD] := by
  have htth : writeTerminalToHost L s [] = [] := rfl
  rw [htth]
  refine ⟨{ w with asynk := { w.asynk with notifyPending := true } }, ?_, ?_, ?_⟩
  · simp only [interposerWriteFlush, List.length_nil, Nat.zero_add]
    rw [asynkWriteGo_nil 0 w.asynk herr hnp]
  · simp only [writePathDrainerStep, asynkDrainerStep, hbuf]
    split
    · simp [epochalWrite, hgen, hbuf]
    · rfl
  · simp only [writePathDrainerStep, asynkDrainerStep]
    split
    · simp [epochalWrite, hgen]
    · rename_i hfalse
      simp at hfalse

/-- Witness for the amended C4 theorem on the fresh write path. -/
theorem zero_write_no_bytes_but_one_ping_witness :
    initWritePath.asynk.buf = [] ∧
      initWritePath.asynk.notifyPending = false ∧
      initWritePath.asynk.upstreamErr = none ∧
      initWritePath.epochal.hasRequestGenerator = true ∧
      (∃ w' : WritePathState,
        interposerWriteFlush initWritePath
            (writeTerminalToHost trivLib interposeInit []) = some (w', (0, none)) ∧
          (writePathDrainerStep w').bytesToServer = initWritePath.bytesToServer ∧
          (writePathDrainerStep w').pingsSent =
            initWritePath.pingsSent ++ [(initWritePath.epochal.epoch + 1) % U64MOD]) :=
  ⟨rfl, rfl, rfl, rfl,
   zero_write_no_bytes_but_one_ping trivLib interposeInit initWritePath rfl rfl rfl rfl⟩

/-- C5 (code bug): `Asynk.Write` accepts all of the input but its return
value is NOT the total number of bytes accepted: the recursive
`return asynk.Write(p[n:])` discards the count of earlier chunks.  With
capacity 1 and the two-byte input `[7, 9]`, both bytes are accepted (the
drainer flushed `[7]` upstream and `[9]` sits in the buffer), yet the
call returns 1, not 2 — violating the claim (and Go's `io.Writer`
contract the type claims to implement). -/
theorem asynkWrite_returns_last_chunk_only :
    asynkWriteGo 3 (makeAsynk 1) [7, 9] =
        some ((1, none),
          { capacity := 1, buf := [9], lastTransmitted := 0,
            notifyPending := true, notifyClosed := false, upstreamErr := none },
          [7]) ∧
      ([7] : List Nat).length + ([9] : List Nat).length = 2 ∧ 1 ≠ 2 := by
  refine ⟨rfl, rfl, ?_⟩
  omega

/-- C6 counterexample: `Asynk.Close` is not idempotent — a second
`Close` executes `close(asynk.writeNotify)` on the already-closed
notification channel, a Go runtime panic. -/
theorem asynk_double_close_panics :
    (asynkClose (makeAsynk 8192)).bind asynkClose =
      Except.error GoPanic.closeOfClosedChannel := by
  rfl

/-- C6 amended: the first `Close` marks the sticky end-of-stream
(`io.EOF` when no upstream error was recorded) and every subsequent
`Write` returns the sticky error with zero bytes accepted; but `Close`
is not idempotent: a second `Close` panics on closing the closed
notification channel. -/
theorem asynk_close_sticky_not_idempotent (s : AsynkState)
    (hopen : s.notifyClosed = false) :
    ∃ s' : AsynkState,
      asynkClose s = .ok s' ∧
        s'.upstreamErr ≠ none ∧
        (s.upstreamErr = none → s'.upstreamErr = some .eof) ∧
        (∀ (fuel : Nat) (p : List Nat),
          asynkWriteGo (fuel + 1) s' p = some ((0, s'.upstreamErr), s', [])) ∧
        asynkClose s' = .error .closeOfClosedChannel := by
  cases herr : s.upstreamErr with
  | none =>
      refine ⟨{ s with upstreamErr := some .eof, notifyClosed := true },
        ?_, by simp, fun _ => rfl, ?_, ?_⟩
      · simp [asynkClose, herr, hopen]
      · intro fuel p
        simp [asynkWriteGo]
      · simp [asynkClose]
  | some err =>
      refine ⟨{ s with notifyClosed := true },
        ?_, by simp [herr],
        fun hcontra => absurd hcontra (Option.some_ne_none err),
        ?_, ?_⟩
      · simp [asynkClose, herr, hopen]
      · intro fuel p
        simp [asynkWriteGo, herr]
      · simp [asynkClose, herr]

/-- Witness for the amended C6 theorem on a fresh sink. -/
theorem asynk_close_sticky_not_idempotent_witness :
    (makeAsynk 8192).notifyClosed = false ∧
      (∃ s' : AsynkState,
        asynkClose (makeAsynk 8192) = .ok s' ∧
          s'.upstreamErr ≠ none ∧
          ((makeAsynk 8192).upstreamErr = none → s'.upstreamErr = some .eof) ∧
          (∀ (fuel : Nat) (p : List Nat),
            asynkWriteGo (fuel + 1) s' p = some ((0, s'.upstreamErr), s', [])) ∧
          asynkClose s' = .error .closeOfClosedChannel) :=
  ⟨rfl, asynk_close_sticky_not_idempotent (makeAsynk 8192) rfl⟩

/-- C7 counterexample: an unrecognised `nosshtradamus/displayPreference`
payload ("bogus", reply wanted, interposer active) is consumed with NO
reply at all — the `switch` has no default clause — refuting the claim
that an unrecognised payload receives a failure reply. -/
theorem displayPreference_unrecognised_gets_no_reply :
    handleDisplayPreference true "bogus".toList true =
      { forwarded := false, reply := none, setPref := none } := by
  decide

/-- C7 amended: every `nosshtradamus/displayPreference` request is
consumed locally (never forwarded to the server); a success reply is
sent iff the interposer is active, a reply is wanted and the payload is
(case-insensitively) one of `always`, `never`, `adaptive`,
`experimental`; a failure reply is never sent — an unrecognised payload
simply receives no reply. -/
theorem displayPreference_consumed_success_iff (active : Bool)
    (payload : List Char) (wantReply : Bool) :
    (handleDisplayPreference active payload wantReply).forwarded = false ∧
      (handleDisplayPreference active payload wantReply).reply ≠ some false ∧
      ((handleDisplayPreference active payload wantReply).reply = some true ↔
        (active = true ∧ wantReply = true ∧
          (payload.map Char.toLower = "always".toList ∨
           payload.map Char.toLower = "never".toList ∨
           payload.map Char.toLower = "adaptive".toList ∨
           payload.map Char.toLower = "experimental".toList))) := by
  cases active with
  | false => simp [handleDisplayPreference]
  | true =>
      simp only [handleDisplayPreference, Bool.not_true]
      rw [if_neg (by simp)]
      split_ifs with h1 h2 h3 h4 <;> cases wantReply <;> simp_all

end Nosshtradamus
